import Mathlib

/-!
Verification of the tool adapters in `agent-backend/src/tools/global_tools.py`:
the human-in-the-loop input tool (`CustomHumanInput`), the arXiv literature
search tool (`get_papers_from_arxiv`), and the generic HTTP request tool
(`openapi_request`).

Python runtime values produced and consumed by these tools are embedded as
`PyVal`.  The external collaborators (the `json` module, the socket client,
the arXiv client, the `requests` library) are modelled: `json.loads` as an
executable JSON parser agreeing with Python on the inputs of interest, and
the network clients as explicit outcome parameters (reply / timeout,
success / exception, response / raised).  All embedded functions are total:
a Python path that catches an exception and returns is modelled by the
corresponding returned value.
-/

/-- Python runtime values, as produced by `json.loads` and passed to the
tools (`None`, `bool`, `int`, `str`, `list`, `dict`). -/
inductive PyVal where
  | none
  | bool (b : Bool)
  | int (n : Int)
  | str (s : String)
  | list (xs : List PyVal)
  | dict (entries : List (String × PyVal))

/-- Whether a Python value is a `str`. -/
def PyVal.isStr : PyVal → Bool
  | PyVal.str _ => true
  | _ => false

/-- Whether a Python value is `None` (`value is None`). -/
def PyVal.isNone : PyVal → Bool
  | PyVal.none => true
  | _ => false

/-- JSON insignificant whitespace skipping (space, tab, newline, carriage
return), as in Python's `json` lexer. -/
def skipWs : List Char → List Char
  | [] => []
  | c :: cs => if c = ' ' ∨ c = '\t' ∨ c = '\n' ∨ c = '\r' then skipWs cs else c :: cs

/-- Value of a hexadecimal digit, for `\uXXXX` string escapes. -/
def hexVal (c : Char) : Option Nat :=
  if '0' ≤ c ∧ c ≤ '9' then Option.some (c.toNat - '0'.toNat)
  else if 'a' ≤ c ∧ c ≤ 'f' then Option.some (c.toNat - 'a'.toNat + 10)
  else if 'A' ≤ c ∧ c ≤ 'F' then Option.some (c.toNat - 'A'.toNat + 10)
  else Option.none

/-- Parse the body of a JSON string literal (after the opening quote),
returning the decoded characters and the input after the closing quote. -/
def parseStringBody (fuel : Nat) (cs : List Char) : Option (List Char × List Char) :=
  match fuel with
  | 0 => Option.none
  | Nat.succ f =>
    match cs with
    | [] => Option.none
    | '"' :: rest => Option.some ([], rest)
    | '\\' :: rest =>
      match rest with
      | [] => Option.none
      | e :: rest2 =>
        let cont := fun (c : Char) (tail : List Char) =>
          match parseStringBody f tail with
          | Option.some (content, rem) => Option.some (c :: content, rem)
          | Option.none => Option.none
        if e = '"' then cont '"' rest2
        else if e = '\\' then cont '\\' rest2
        else if e = '/' then cont '/' rest2
        else if e = 'b' then cont (Char.ofNat 8) rest2
        else if e = 'f' then cont (Char.ofNat 12) rest2
        else if e = 'n' then cont '\n' rest2
        else if e = 'r' then cont '\r' rest2
        else if e = 't' then cont '\t' rest2
        else if e = 'u' then
          match rest2 with
          | a :: b :: c :: d :: rest3 =>
            match hexVal a, hexVal b, hexVal c, hexVal d with
            | Option.some x1, Option.some x2, Option.some x3, Option.some x4 =>
              cont (Char.ofNat (((x1 * 16 + x2) * 16 + x3) * 16 + x4)) rest3
            | _, _, _, _ => Option.none
          | _ => Option.none
        else Option.none
    | c :: rest =>
      if c.toNat < 32 then Option.none
      else
        match parseStringBody f rest with
        | Option.some (content, rem) => Option.some (c :: content, rem)
        | Option.none => Option.none

/-- Read a run of decimal digits, accumulating their value. -/
def parseDigits : List Char → Nat → Nat × List Char
  | [], acc => (acc, [])
  | c :: cs, acc =>
    if '0' ≤ c ∧ c ≤ '9' then parseDigits cs (acc * 10 + (c.toNat - '0'.toNat))
    else (acc, c :: cs)

/-- Python `dict` insertion as performed while decoding a JSON object: a
repeated key overwrites the stored value but keeps its original position. -/
def dictInsert (es : List (String × PyVal)) (k : String) (v : PyVal) :
    List (String × PyVal) :=
  if es.any (fun e => e.1 == k) then
    es.map (fun e => if e.1 == k then (k, v) else e)
  else es ++ [(k, v)]

/-- State of the recursive-descent JSON decoder: parsing one value, the
pairs of an object body, or the elements of an array body. -/
inductive ParseJob where
  | value
  | objPairs (acc : List (String × PyVal))
  | arrElems (acc : List PyVal)

/-- One fueled step relation of the recursive-descent decoder behind
Python's `json.loads` (restricted to integer numeric literals): parse a
value, or the remaining pairs of an object, or the remaining elements of
an array, returning the decoded value and the rest of the input. -/
def parseJson (fuel : Nat) (job : ParseJob) (cs : List Char) :
    Option (PyVal × List Char) :=
  match fuel with
  | 0 => Option.none
  | Nat.succ f =>
    match job with
    | ParseJob.value =>
      match skipWs cs with
      | [] => Option.none
      | c :: rest =>
        if c = '\x7b' then
          match skipWs rest with
          | '\x7d' :: rem => Option.some (PyVal.dict [], rem)
          | cs2 => parseJson f (ParseJob.objPairs []) cs2
        else if c = '[' then
          match skipWs rest with
          | ']' :: rem => Option.some (PyVal.list [], rem)
          | cs2 => parseJson f (ParseJob.arrElems []) cs2
        else if c = '"' then
          match parseStringBody f rest with
          | Option.some (content, rem) => Option.some (PyVal.str (String.mk content), rem)
          | Option.none => Option.none
        else if c = 't' then
          match rest with
          | 'r' :: 'u' :: 'e' :: rem => Option.some (PyVal.bool true, rem)
          | _ => Option.none
        else if c = 'f' then
          match rest with
          | 'a' :: 'l' :: 's' :: 'e' :: rem => Option.some (PyVal.bool false, rem)
          | _ => Option.none
        else if c = 'n' then
          match rest with
          | 'u' :: 'l' :: 'l' :: rem => Option.some (PyVal.none, rem)
          | _ => Option.none
        else if c = '-' then
          match rest with
          | d :: _ =>
            if '0' ≤ d ∧ d ≤ '9' then
              let p := parseDigits rest 0
              Option.some (PyVal.int (-(Int.ofNat p.1)), p.2)
            else Option.none
          | [] => Option.none
        else if '0' ≤ c ∧ c ≤ '9' then
          let p := parseDigits (c :: rest) 0
          Option.some (PyVal.int (Int.ofNat p.1), p.2)
        else Option.none
    | ParseJob.objPairs acc =>
      match cs with
      | '"' :: rest =>
        match parseStringBody f rest with
        | Option.some (key, rem) =>
          match skipWs rem with
          | ':' :: rem2 =>
            match parseJson f ParseJob.value rem2 with
            | Option.some (v, rem3) =>
              match skipWs rem3 with
              | ',' :: rem4 =>
                parseJson f (ParseJob.objPairs (dictInsert acc (String.mk key) v)) (skipWs rem4)
              | '\x7d' :: rem4 =>
                Option.some (PyVal.dict (dictInsert acc (String.mk key) v), rem4)
              | _ => Option.none
            | Option.none => Option.none
          | _ => Option.none
        | Option.none => Option.none
      | _ => Option.none
    | ParseJob.arrElems acc =>
      match parseJson f ParseJob.value cs with
      | Option.some (v, rem) =>
        match skipWs rem with
        | ',' :: rem2 => parseJson f (ParseJob.arrElems (acc ++ [v])) rem2
        | ']' :: rem2 => Option.some (PyVal.list (acc ++ [v]), rem2)
        | _ => Option.none
      | Option.none => Option.none

/-- Model of Python's `json.loads`: parse a complete JSON document, requiring
only trailing whitespace after the value.  `Option.none` models a raised
`JSONDecodeError`. -/
def json_loads (s : String) : Option PyVal :=
  let cs := s.toList
  match parseJson (cs.length + 1) ParseJob.value cs with
  | Option.some (v, rem) => if (skipWs rem).isEmpty then Option.some v else Option.none
  | Option.none => Option.none

/-- Python `text.startswith` applied to the opening-brace character, the
shape sniff guarding JSON extraction in `extract_message`. -/
def startsWithBrace (s : String) : Bool :=
  match s.toList with
  | c :: _ => c == '\x7b'
  | [] => false

/-- `next((value for value in text_json.values() if value is not None), None)`:
the first non-`None` value of the dict, else `None`. -/
def firstNonNullValue : List (String × PyVal) → PyVal
  | [] => PyVal.none
  | (_, v) :: rest => if v.isNone then firstNonNullValue rest else v

/-- `CustomHumanInput.extract_message`.  A non-`str` input, or a `str` not
starting with a brace, is returned unchanged; a parse failure is logged and
the input returned unchanged; a parsed object with more than one entry is
returned unchanged as the original string; otherwise the first non-null
value (or `None`).  The `Option.some` non-dict case is unreachable for
inputs starting with a brace; in Python it would end in a caught `TypeError`
or `AttributeError`, likewise returning the input. -/
def extract_message (text : PyVal) : PyVal :=
  match text with
  | PyVal.str s =>
    if startsWithBrace s then
      match json_loads s with
      | Option.some (PyVal.dict entries) =>
        if entries.length > 1 then PyVal.str s
        else firstNonNullValue entries
      | Option.some _ => PyVal.str s
      | Option.none => PyVal.str s
    else PyVal.str s
  | other => other

/-- Modelled from the spec: `models/sockets.py` is not part of the excerpt;
per §6 the outbound event carrying the envelope is the `message` event. -/
def SocketEvents.MESSAGE : String := "message"

/-- The inner `Message` model of the outbound envelope: chunk id, normalized
text, `first`, the fixed `tokens=1` placeholder, epoch-millisecond timestamp,
`single`. -/
structure Message where
  chunkId : String
  text : PyVal
  first : Bool
  tokens : Nat
  timestamp : Int
  single : Bool

/-- The outbound envelope model: room (session id), author name, inner
message, feedback flag. -/
structure SocketMessage where
  room : String
  authorName : String
  message : Message
  isFeedback : Bool

/-- Observable outbound traffic of one `_run` invocation: a structured
`send(client, event, SocketMessage, target)` call, or a raw
`client.emit(event, payload)` call with a flat string-valued dict payload. -/
inductive Emission where
  | send (event : String) (msg : SocketMessage) (target : String)
  | emit (event : String) (payload : List (String × String))

/-- Whether an emission is a raw `client.emit` call (the shape of the
timeout error notification). -/
def Emission.isRawEmit : Emission → Bool
  | Emission.emit _ _ => true
  | _ => false

/-- Outcome of the blocking `socket_client.receive()`: a reply (modelled at
the two elements the code reads, `feedback[0]` and `feedback[1]`), or a
`TimeoutError` raised while waiting. -/
inductive SocketReply where
  | received (fst snd : String)
  | timeout

/-- Result of one `_run` invocation: the returned string and the outbound
socket traffic, in order. -/
structure RunResult where
  retVal : String
  emissions : List Emission

namespace CustomHumanInput

/-- `CustomHumanInput._run`: build the envelope around the normalized text,
send it on the `message` event in `both` mode, then block on `receive()`.
On a reply, a first element `terminate` yields the termination sentinel,
otherwise the second element is returned.  On a `TimeoutError`, the error
notification is emitted and `exit` returned.  `chunkId` and `nowMillis`
stand for the fresh `uuid4` and `datetime.now().timestamp() * 1000`. -/
def _run (session_id : String) (chunkId : String) (nowMillis : Int)
    (text : PyVal) (reply : SocketReply) : RunResult :=
  let outbound := Emission.send SocketEvents.MESSAGE
    { room := session_id
      authorName := "system"
      message :=
        { chunkId := chunkId
          text := extract_message text
          first := true
          tokens := 1
          timestamp := nowMillis
          single := true }
      isFeedback := true } "both"
  match reply with
  | SocketReply.received fst snd =>
    { retVal := if fst = "terminate" then " TERMINATE ALL TASKS IMMEDIATELY " else snd
      emissions := [outbound] }
  | SocketReply.timeout =>
    { retVal := "exit"
      emissions := [outbound,
        Emission.emit "message"
          [("room", session_id), ("type", "error"), ("message", "TimeOutError")]] }

end CustomHumanInput

/-- Outcome of the arXiv query loop in `get_papers_from_arxiv._run`: the
titles collected from `arxiv.Client().results(search)`, or an exception
with its `str(e)` text. -/
inductive ArxivOutcome where
  | success (titles : List String)
  | failure (err : String)

namespace get_papers_from_arxiv

/-- `get_papers_from_arxiv._run`: on success the accumulated `results` list
of titles is returned as-is (a Python list, despite the `-> str`
annotation); on any exception the error is printed and the string
`An error occurred: str(e)` is returned. -/
def _run (outcome : ArxivOutcome) : PyVal :=
  match outcome with
  | ArxivOutcome.success titles => PyVal.list (titles.map PyVal.str)
  | ArxivOutcome.failure err => PyVal.str ("An error occurred: " ++ err)

end get_papers_from_arxiv

/-- An HTTP response as seen through `requests`: the status code and the
result of `response.json()` (`Option.none` models `.json()` raising on a
non-JSON body; the exception is caught by the surrounding handler). -/
structure HttpResponse where
  status_code : Nat
  json : Option PyVal

/-- Outcome of the `request_method(base_url + endpoint, params=kwargs)`
call: a response, or an exception raised during the request. -/
inductive HttpOutcome where
  | response (r : HttpResponse)
  | raised

/-- The callable HTTP-verb attributes of the `requests` module: the names
for which `getattr(requests, method)` yields a request function. -/
def requestsMethods : List String :=
  ["get", "post", "put", "delete", "patch", "head", "options", "request"]

/-- `kwargs.get(k)`: the stored value, or `None` when the key is absent. -/
def kwargsGet (kwargs : List (String × PyVal)) (k : String) : PyVal :=
  match kwargs.find? (fun e => e.1 == k) with
  | Option.some e => e.2
  | Option.none => PyVal.none

/-- The three `kwargs.pop` calls: the remaining kwargs become the `params`
of the request. -/
def stripRequestKeys (kwargs : List (String × PyVal)) : List (String × PyVal) :=
  kwargs.filter (fun e => e.1 != "__baseurl" && e.1 != "__path" && e.1 != "__method")

/-- `openapi_request.openapi_request`: read `__baseurl`, `__path` and
`__method` from the kwargs, resolve the request function by
`getattr(requests, method)`, pop the three keys and issue the request with
the rest as params.  A 200 response yields `response.json()`; any other
status yields `None` explicitly.  Any exception (missing or non-string
reserved keys making `getattr` or the URL concatenation raise, an unknown
method name, a raised request, a failing `.json()`) is caught and printed,
and the bare `return`-less handler yields `None`.  The external `requests`
library is the parameter `http`, mapping the method name, the URL and the
params to an outcome. -/
def openapi_request (http : String → String → List (String × PyVal) → HttpOutcome)
    (kwargs : List (String × PyVal)) : PyVal :=
  match kwargsGet kwargs "__baseurl", kwargsGet kwargs "__path",
      kwargsGet kwargs "__method" with
  | PyVal.str base, PyVal.str path, PyVal.str m =>
    if requestsMethods.contains m then
      match http m (base ++ path) (stripRequestKeys kwargs) with
      | HttpOutcome.raised => PyVal.none
      | HttpOutcome.response r =>
        if r.status_code = 200 then
          match r.json with
          | Option.some j => j
          | Option.none => PyVal.none
        else PyVal.none
    else PyVal.none
  | _, _, _ => PyVal.none

/-- A value of the shape the `extract_message` sniff tests for: a Python
`str` whose first character is an opening brace. -/
def looksLikeJsonObject : PyVal → Bool
  | PyVal.str s => startsWithBrace s
  | _ => false

/-- C1: for every two-element reply received after publishing the feedback
request, a first element equal to `terminate` makes `_run` return exactly
the sentinel `TERMINATE ALL TASKS IMMEDIATELY` padded by one space on each
side, regardless of the second element, and any other first element makes
`_run` return the second element of the reply. -/
theorem humanInput_reply_dispatch (sid cid : String) (nowMillis : Int)
    (text : PyVal) (fst snd : String) :
    (CustomHumanInput._run sid cid nowMillis text
        (SocketReply.received "terminate" snd)).retVal
      = " TERMINATE ALL TASKS IMMEDIATELY "
    ∧ (fst ≠ "terminate" →
      (CustomHumanInput._run sid cid nowMillis text
          (SocketReply.received fst snd)).retVal = snd) := by
  constructor
  · rfl
  · intro h
    simp [CustomHumanInput._run, h]

/-- C1 witness: a `terminate` reply yields the sentinel and an `ok`/`yes`
reply yields `yes`. -/
theorem humanInput_reply_dispatch_witness :
    (CustomHumanInput._run "sess" "chunk" 0 PyVal.none
        (SocketReply.received "terminate" "x")).retVal
      = " TERMINATE ALL TASKS IMMEDIATELY "
    ∧ (CustomHumanInput._run "sess" "chunk" 0 PyVal.none
        (SocketReply.received "ok" "yes")).retVal = "yes" :=
  ⟨(humanInput_reply_dispatch "sess" "chunk" 0 PyVal.none "ok" "x").1,
   (humanInput_reply_dispatch "sess" "chunk" 0 PyVal.none "ok" "yes").2 (by decide)⟩

/-- C2: on a timeout while waiting for the reply, `_run` returns `exit` and
the outbound traffic contains exactly one raw error notification, on the
`message` event, whose payload maps `room` to the session id, `type` to
`error` and `message` to `TimeOutError`; totality of the embedding records
that nothing is raised past this point. -/
theorem humanInput_timeout_notification (sid cid : String) (nowMillis : Int)
    (text : PyVal) :
    (CustomHumanInput._run sid cid nowMillis text SocketReply.timeout).retVal = "exit"
    ∧ (CustomHumanInput._run sid cid nowMillis text
          SocketReply.timeout).emissions.filter Emission.isRawEmit
      = [Emission.emit "message"
          [("room", sid), ("type", "error"), ("message", "TimeOutError")]] := by
  constructor
  · rfl
  · rfl

/-- C4 counterexample: the string made of a space followed by a one-entry
JSON object parses under `json.loads` as a JSON object with exactly one
entry whose value is non-null, yet `extract_message` returns the input
unchanged rather than that value, because the shape sniff
`text.startswith` on the opening brace rejects the leading whitespace that
the JSON parser accepts. -/
theorem extract_single_entry_counterexample :
    json_loads " \x7b\"a\": \"x\"\x7d"
      = Option.some (PyVal.dict [("a", PyVal.str "x")])
    ∧ (PyVal.str "x").isNone = false
    ∧ extract_message (PyVal.str " \x7b\"a\": \"x\"\x7d")
      = PyVal.str " \x7b\"a\": \"x\"\x7d"
    ∧ extract_message (PyVal.str " \x7b\"a\": \"x\"\x7d") ≠ PyVal.str "x" :=
  ⟨rfl, rfl, rfl, fun h => absurd (PyVal.str.inj h) (by decide)⟩

/-- C4 amended: for every string input that starts with an opening brace
and parses as a JSON object with exactly one entry whose value is
non-null, `extract_message` returns that single value. -/
theorem extract_single_entry (s k : String) (v : PyVal)
    (hb : startsWithBrace s = true)
    (hp : json_loads s = Option.some (PyVal.dict [(k, v)]))
    (hv : v.isNone = false) :
    extract_message (PyVal.str s) = v := by
  simp [extract_message, hb, hp, firstNonNullValue, hv]

/-- C4 witness: the single-entry question object yields its value `hi`. -/
theorem extract_single_entry_witness :
    extract_message (PyVal.str "\x7b\"question\": \"hi\"\x7d") = PyVal.str "hi" :=
  extract_single_entry "\x7b\"question\": \"hi\"\x7d" "question" (PyVal.str "hi")
    rfl rfl rfl

/-- C5: for every string input that parses as a JSON object with more than
one entry, `extract_message` returns the original string unchanged, with
no sub-field extracted. -/
theorem extract_multi_entry (s : String) (es : List (String × PyVal))
    (hp : json_loads s = Option.some (PyVal.dict es)) (hlen : 1 < es.length) :
    extract_message (PyVal.str s) = PyVal.str s := by
  cases hb : startsWithBrace s with
  | false => simp [extract_message, hb]
  | true => simp [extract_message, hb, hp, hlen]

/-- C5 witness: the two-entry object is returned verbatim. -/
theorem extract_multi_entry_witness :
    extract_message (PyVal.str "\x7b\"a\": \"x\", \"b\": \"y\"\x7d")
      = PyVal.str "\x7b\"a\": \"x\", \"b\": \"y\"\x7d" :=
  extract_multi_entry "\x7b\"a\": \"x\", \"b\": \"y\"\x7d"
    [("a", PyVal.str "x"), ("b", PyVal.str "y")] rfl (by decide)

/-- C6: every input that is not a brace-initial string is returned
unchanged, and every brace-initial string whose parse fails (the logged
exception path) is returned unchanged; totality of `extract_message`
records that nothing is raised. -/
theorem extract_fail_open (v : PyVal) (s : String) :
    (looksLikeJsonObject v = false → extract_message v = v)
    ∧ (startsWithBrace s = true → json_loads s = Option.none →
      extract_message (PyVal.str s) = PyVal.str s) := by
  constructor
  · intro h
    cases v with
    | str t =>
      simp only [looksLikeJsonObject] at h
      simp [extract_message, h]
    | none => rfl
    | bool b => rfl
    | int n => rfl
    | list xs => rfl
    | dict es => rfl
  · intro hb hp
    simp [extract_message, hb, hp]

/-- C6 witness: a plain string is returned unchanged, and so is the
malformed brace-initial input. -/
theorem extract_fail_open_witness :
    extract_message (PyVal.str "hello") = PyVal.str "hello"
    ∧ extract_message (PyVal.str "\x7bnot json") = PyVal.str "\x7bnot json" :=
  ⟨(extract_fail_open (PyVal.str "hello") "\x7bnot json").1 rfl,
   (extract_fail_open (PyVal.str "hello") "\x7bnot json").2 rfl rfl⟩

/-- C7: the single-entry object whose value is `null` yields Python
`None`. -/
theorem extract_null_value :
    extract_message (PyVal.str "\x7b\"a\": null\x7d") = PyVal.none := rfl

/-- C9: the empty JSON object yields Python `None`, not the original
string. -/
theorem extract_empty_object :
    extract_message (PyVal.str "\x7b\x7d") = PyVal.none
    ∧ extract_message (PyVal.str "\x7b\x7d") ≠ PyVal.str "\x7b\x7d" :=
  ⟨rfl, fun h => PyVal.noConfusion h⟩

/-- C3 counterexample: with the `__method` kwarg absent (so `getattr`
raises before any request), `openapi_request` fails, the exception is
caught and printed, and the bare handler returns Python `None` — not a
string — refuting the claim that every failing sibling tool converts the
exception to an error string result. -/
theorem openapi_failure_not_string :
    openapi_request (fun _ _ _ => HttpOutcome.raised)
      [("__baseurl", PyVal.str "http://api"), ("__path", PyVal.str "/v1")]
      = PyVal.none
    ∧ (openapi_request (fun _ _ _ => HttpOutcome.raised)
      [("__baseurl", PyVal.str "http://api"), ("__path", PyVal.str "/v1")]).isStr
      = false :=
  ⟨rfl, rfl⟩

/-- C3 amended: no failure propagates an exception — each failure path
returns a value to the caller — and the human-input tool returns the
string `exit` on timeout, the arXiv tool converts any exception to the
string `An error occurred: str(e)`, but `openapi_request` returns `None`
on failure rather than an error string. -/
theorem failure_paths_return_without_raising (sid cid : String) (nowMillis : Int)
    (text : PyVal) (err : String)
    (http : String → String → List (String × PyVal) → HttpOutcome)
    (kwargs : List (String × PyVal)) :
    (CustomHumanInput._run sid cid nowMillis text SocketReply.timeout).retVal = "exit"
    ∧ get_papers_from_arxiv._run (ArxivOutcome.failure err)
      = PyVal.str ("An error occurred: " ++ err)
    ∧ ((∀ m u p, http m u p = HttpOutcome.raised) →
      openapi_request http kwargs = PyVal.none) := by
  refine ⟨rfl, rfl, fun hr => ?_⟩
  unfold openapi_request
  cases kwargsGet kwargs "__baseurl" <;> cases kwargsGet kwargs "__path" <;>
    cases kwargsGet kwargs "__method" <;> simp [hr]

/-- C3 witness: the three failure paths at concrete inputs. -/
theorem failure_paths_return_without_raising_witness :
    (CustomHumanInput._run "sess" "chunk" 0 PyVal.none SocketReply.timeout).retVal
      = "exit"
    ∧ get_papers_from_arxiv._run (ArxivOutcome.failure "boom")
      = PyVal.str ("An error occurred: " ++ "boom")
    ∧ openapi_request (fun _ _ _ => HttpOutcome.raised)
        [("__baseurl", PyVal.str "b"), ("__path", PyVal.str "p"),
         ("__method", PyVal.str "get")]
      = PyVal.none :=
  ⟨(failure_paths_return_without_raising "sess" "chunk" 0 PyVal.none "boom"
      (fun _ _ _ => HttpOutcome.raised)
      [("__baseurl", PyVal.str "b"), ("__path", PyVal.str "p"),
       ("__method", PyVal.str "get")]).1,
   (failure_paths_return_without_raising "sess" "chunk" 0 PyVal.none "boom"
      (fun _ _ _ => HttpOutcome.raised)
      [("__baseurl", PyVal.str "b"), ("__path", PyVal.str "p"),
       ("__method", PyVal.str "get")]).2.1,
   (failure_paths_return_without_raising "sess" "chunk" 0 PyVal.none "boom"
      (fun _ _ _ => HttpOutcome.raised)
      [("__baseurl", PyVal.str "b"), ("__path", PyVal.str "p"),
       ("__method", PyVal.str "get")]).2.2 (fun _ _ _ => rfl)⟩

/-- C8: on a successful arXiv query the code returns the accumulated
`results` value — a Python list of titles — verbatim, which is not a
string, contradicting the declared `-> str` return annotation and the
spec's description of a string result. -/
theorem arxiv_success_returns_list :
    get_papers_from_arxiv._run (ArxivOutcome.success ["Paper A"])
      = PyVal.list [PyVal.str "Paper A"]
    ∧ (get_papers_from_arxiv._run (ArxivOutcome.success ["Paper A"])).isStr
      = false :=
  ⟨rfl, rfl⟩

/-- C10: with the three reserved kwargs present as strings and a valid
`requests` method name, a response with status code 200 makes
`openapi_request` return the parsed JSON body, a response with any other
status code makes it return `None`, an exception raised during the request
makes it return `None`, and a missing `__method` kwarg (so `getattr`
raises) likewise makes it return `None`; totality of the embedding records
that nothing is raised and no error string is produced on these paths. -/
theorem openapi_status_dispatch
    (http : String → String → List (String × PyVal) → HttpOutcome)
    (kwargs : List (String × PyVal)) (base path m : String)
    (r : HttpResponse) (j : PyVal) :
    (kwargsGet kwargs "__baseurl" = PyVal.str base →
     kwargsGet kwargs "__path" = PyVal.str path →
     kwargsGet kwargs "__method" = PyVal.str m →
     requestsMethods.contains m = true →
     http m (base ++ path) (stripRequestKeys kwargs) = HttpOutcome.response r →
     ((r.status_code = 200 → r.json = Option.some j →
        openapi_request http kwargs = j)
      ∧ (r.status_code ≠ 200 → openapi_request http kwargs = PyVal.none)))
    ∧ (kwargsGet kwargs "__baseurl" = PyVal.str base →
       kwargsGet kwargs "__path" = PyVal.str path →
       kwargsGet kwargs "__method" = PyVal.str m →
       requestsMethods.contains m = true →
       http m (base ++ path) (stripRequestKeys kwargs) = HttpOutcome.raised →
       openapi_request http kwargs = PyVal.none)
    ∧ (kwargsGet kwargs "__method" = PyVal.none →
       openapi_request http kwargs = PyVal.none) := by
  refine ⟨fun hb hp hm hv hresp => ⟨fun hs hj => ?_, fun hs => ?_⟩,
    fun hb hp hm hv hraise => ?_, fun hm => ?_⟩
  · have hmem : m ∈ requestsMethods := by simpa using hv
    unfold openapi_request
    simp [hb, hp, hm, hmem, hresp, hs, hj]
  · have hmem : m ∈ requestsMethods := by simpa using hv
    unfold openapi_request
    simp [hb, hp, hm, hmem, hresp, hs]
  · have hmem : m ∈ requestsMethods := by simpa using hv
    unfold openapi_request
    simp [hb, hp, hm, hmem, hraise]
  · unfold openapi_request
    cases kwargsGet kwargs "__baseurl" <;> cases kwargsGet kwargs "__path" <;>
      simp [hm]

/-- C10 witness: a 200 response yields its JSON body, a 500 response
yields `None`, and a missing `__method` kwarg yields `None`. -/
theorem openapi_status_dispatch_witness :
    openapi_request
      (fun _ _ _ => HttpOutcome.response
        { status_code := 200, json := Option.some (PyVal.str "ok") })
      [("__baseurl", PyVal.str "http://api"), ("__path", PyVal.str "/v1"),
       ("__method", PyVal.str "get"), ("q", PyVal.str "x")]
      = PyVal.str "ok"
    ∧ openapi_request
      (fun _ _ _ => HttpOutcome.response
        { status_code := 500, json := Option.some (PyVal.str "ok") })
      [("__baseurl", PyVal.str "http://api"), ("__path", PyVal.str "/v1"),
       ("__method", PyVal.str "get"), ("q", PyVal.str "x")]
      = PyVal.none
    ∧ openapi_request
      (fun _ _ _ => HttpOutcome.response
        { status_code := 200, json := Option.some (PyVal.str "ok") })
      [("__baseurl", PyVal.str "http://api")]
      = PyVal.none :=
  ⟨((openapi_status_dispatch
      (fun _ _ _ => HttpOutcome.response
        { status_code := 200, json := Option.some (PyVal.str "ok") })
      [("__baseurl", PyVal.str "http://api"), ("__path", PyVal.str "/v1"),
       ("__method", PyVal.str "get"), ("q", PyVal.str "x")]
      "http://api" "/v1" "get"
      { status_code := 200, json := Option.some (PyVal.str "ok") }
      (PyVal.str "ok")).1 rfl rfl rfl rfl rfl).1 rfl rfl,
   ((openapi_status_dispatch
      (fun _ _ _ => HttpOutcome.response
        { status_code := 500, json := Option.some (PyVal.str "ok") })
      [("__baseurl", PyVal.str "http://api"), ("__path", PyVal.str "/v1"),
       ("__method", PyVal.str "get"), ("q", PyVal.str "x")]
      "http://api" "/v1" "get"
      { status_code := 500, json := Option.some (PyVal.str "ok") }
      (PyVal.str "ok")).1 rfl rfl rfl rfl rfl).2 (by decide),
   (openapi_status_dispatch
      (fun _ _ _ => HttpOutcome.response
        { status_code := 200, json := Option.some (PyVal.str "ok") })
      [("__baseurl", PyVal.str "http://api")]
      "http://api" "/v1" "get"
      { status_code := 200, json := Option.some (PyVal.str "ok") }
      (PyVal.str "ok")).2.2 rfl⟩
